import Mathlib

/-!
Verification of the soilstat liquefaction core against its specification.

The Python source is shallowly embedded: rational-valued code (the layered
soil-profile stress model, the experiment logs, the depth enumeration and the
piecewise rd/CRR formulas) is translated over `ℚ`; formulas involving
`math.exp`, `math.log`, `math.pow` with non-integer exponents or `math.sin`
are translated over `ℝ` with `Real.exp`, `Real.log`, `Real.rpow`, `Real.sin`.
Fallible code (Python `raise`, attribute errors, `TypeError`s) is modelled
with `Except String` or `Option`; the unbounded recursion of the CPT `calc_cn`
solver is modelled with an explicit fuel argument, `none` meaning that the
recursion does not finish within the given fuel.
-/

namespace Soilstat

/-- One stratum of the soil column, from `SoilLayer` in
`models/soil_profile.py`.  `thickness` is `Option ℚ` because the Python field
may hold `None` (the constructor explicitly checks `layer.thickness is None`).
Only the fields read by the liquefaction code are embedded; the remaining
index properties of the dataclass are never touched by the functions below. -/
structure SoilLayer where
  thickness : Option ℚ
  dry_unit_weight : ℚ := 0
  saturated_unit_weight : ℚ := 0
  depth : ℚ := 0
  center : ℚ := 0
  fine_content : ℚ := 0
  plasticity_index : ℚ := 0
  deriving DecidableEq

instance : Inhabited SoilLayer := ⟨{ thickness := none }⟩

/-- Numeric value of the thickness; every code path below is only reached
after the constructor has rejected `None` thicknesses, so the default is
never observed on validated profiles. -/
def SoilLayer.t (l : SoilLayer) : ℚ := l.thickness.getD 0

/-- `SoilProfile` from `models/soil_profile.py`: the layer list plus
`ground_water_level`. -/
structure SoilProfile where
  layers : List SoilLayer
  ground_water_level : ℚ
  deriving DecidableEq

/-- The loop of `calc_layer_depths`: walking from `bottom`, each layer gets
`center = bottom + thickness/2` and `depth = bottom + thickness` (the Python
single-layer special case computes the same values). -/
def calcLayerDepthsGo (bottom : ℚ) : List SoilLayer → List SoilLayer
  | [] => []
  | l :: ls =>
    { l with center := bottom + l.t / 2, depth := bottom + l.t }
      :: calcLayerDepthsGo (bottom + l.t) ls

/-- `SoilProfile.__init__`: stores the layers and water level, runs
`validate` (raises when the layer list is empty) and `calc_layer_depths`
(raises when some thickness is `None`, otherwise fills the `depth` and
`center` fields). -/
def SoilProfile.create (layers : List SoilLayer) (ground_water_level : ℚ) :
    Except String SoilProfile :=
  if layers.isEmpty then
    Except.error "Soil profile must contain at least one layer."
  else if layers.any (fun l => l.thickness = none) then
    Except.error "Thickness of soil layer must be specified."
  else
    Except.ok ⟨calcLayerDepthsGo 0 layers, ground_water_level⟩

/-- Helper for `get_layer_index`: index of the first layer whose stored
bottom `depth` is at or below the query depth (`layer.depth >= depth`). -/
def findLayerIdx (depth : ℚ) : List SoilLayer → Option ℕ
  | [] => none
  | l :: ls =>
    if depth ≤ l.depth then some 0 else (findLayerIdx depth ls).map (· + 1)

/-- `get_layer_index`: first layer whose bottom depth is `≥` the query depth;
when the query depth exceeds every layer bottom, the last index is returned
(the deliberate clamp). -/
def SoilProfile.get_layer_index (p : SoilProfile) (depth : ℚ) : ℕ :=
  (findLayerIdx depth p.layers).getD (p.layers.length - 1)

/-- `get_layer_at_depth`. -/
def SoilProfile.get_layer_at_depth (p : SoilProfile) (depth : ℚ) : SoilLayer :=
  p.layers.getD (p.get_layer_index depth) default

/-- The loop body of `calc_normal_stress`: walks the slice
`layers[: layer_index + 1]` with the running position `i`, the cumulative
`prev` depth and the accumulated `total` stress.  The last layer of the slice
(`i == layer_index`) contributes only the remaining `depth - prev` thickness;
each increment uses the dry unit weight above the water table, the saturated
unit weight below it, and splits at the water table in between. -/
def normalStressGo (gwl depth : ℚ) (layerIndex : ℕ) :
    List SoilLayer → ℕ → ℚ → ℚ → ℚ
  | [], _, _, total => total
  | l :: ls, i, prev, total =>
    let lt : ℚ := if i = layerIndex then depth - prev else l.t
    let contrib : ℚ :=
      if prev + lt ≤ gwl then l.dry_unit_weight * lt
      else if gwl ≤ prev then l.saturated_unit_weight * lt
      else
        l.dry_unit_weight * (gwl - prev) +
          l.saturated_unit_weight * (lt - (gwl - prev))
    normalStressGo gwl depth layerIndex ls (i + 1) (prev + lt) (total + contrib)

/-- `calc_normal_stress`: total vertical stress at `depth`, integrating unit
weight times thickness from the surface down to `depth`. -/
def SoilProfile.calc_normal_stress (p : SoilProfile) (depth : ℚ) : ℚ :=
  let li := p.get_layer_index depth
  normalStressGo p.ground_water_level depth li (p.layers.take (li + 1)) 0 0 0

/-- `calc_effective_stress`: normal stress, minus the pore pressure
`(depth - gwl) * 0.981` when the depth is below the water table. -/
def SoilProfile.calc_effective_stress (p : SoilProfile) (depth : ℚ) : ℚ :=
  let normal_stress := p.calc_normal_stress depth
  if depth ≤ p.ground_water_level then normal_stress
  else normal_stress - (depth - p.ground_water_level) * (981 / 1000)

/-- CPT record (`models/CPT.py`). -/
structure CPTExp where
  depth : ℚ
  cone_resistance : ℚ
  deriving DecidableEq

/-- CPT log. -/
structure CPTLog where
  exps : List CPTExp
  deriving DecidableEq

/-- Helper mirroring the loop of `get_exp_at_depth`: position of the first
record whose depth is `≥` the query depth. -/
def findExpIdx (depth : ℚ) : List ℚ → Option ℕ
  | [] => none
  | d :: ds =>
    if depth ≤ d then some 0 else (findExpIdx depth ds).map (· + 1)

/-- `CPTLog.get_exp_at_depth`: the loop returns `exps[i - 1]` for the first
`i` with `exps[i].depth >= depth`; for `i = 0` the Python index `-1` selects
the LAST record.  When no record is at least as deep as the query, it falls
through to `exps[-1]`, the last record.  `none` models the `IndexError` on an
empty log. -/
def CPTLog.get_exp_at_depth (log : CPTLog) (depth : ℚ) : Option CPTExp :=
  match findExpIdx depth (log.exps.map (·.depth)) with
  | some 0 => log.exps.getLast?
  | some (i + 1) => log.exps.get? i
  | none => log.exps.getLast?

/-- MASW record (`models/MASW.py`). -/
structure MASWExp where
  depth : ℚ
  shear_wave_velocity : ℚ
  deriving DecidableEq

/-- MASW log. -/
structure MASWLog where
  exps : List MASWExp
  deriving DecidableEq

/-- `MASWLog.get_exp_at_depth`, identical in shape to the CPT version. -/
def MASWLog.get_exp_at_depth (log : MASWLog) (depth : ℚ) : Option MASWExp :=
  match findExpIdx depth (log.exps.map (·.depth)) with
  | some 0 => log.exps.getLast?
  | some (i + 1) => log.exps.get? i
  | none => log.exps.getLast?

/-- SPT record (`models/SPT.py`); only the fields read by the Idriss
pipeline are embedded.  The blow counts are rationals: Python annotates them
as `int` but never enforces it, and the spec exercises `n160f = 33.999`. -/
structure SptExp where
  depth : ℚ
  n : ℚ
  n60 : ℚ := 0
  n90 : ℚ := 0
  n160 : ℚ := 0
  n160f : ℚ := 0
  deriving DecidableEq

/-- SPT log (`class SPT`); the correction factors are irrelevant to the
claims and omitted. -/
structure SPTLog where
  exps : List SptExp
  deriving DecidableEq

/-- `get_all_depths` from `liquefaction/helper_functions.py`:
`sorted(list(set(layer_depths + exp_depths)))`.  The source extracts
`layer_depths` from the profile and `exp_depths` from the log; the two lists
are taken here as arguments, and call sites pass the corresponding maps. -/
def get_all_depths (layer_depths exp_depths : List ℚ) : List ℚ :=
  ((layer_depths ++ exp_depths).dedup).insertionSort (· ≤ ·)

/-- The per-depth result record: the dictionary returned by the
`analyse_for_layer` functions of the three pipelines (they all build the same
keys). -/
structure LayerResult where
  CSR : ℝ
  CRR75 : ℝ
  CRR : ℝ
  rd : ℝ
  normalStress : ℝ
  effectiveStress : ℝ
  safetyFactor : ℝ
  is_safe : Bool
  settlement : ℝ

namespace HF

/-- `helper_functions.calc_msf`: `10**2.24 / Mw**2.56`. -/
noncomputable def calc_msf (Mw : ℝ) : ℝ := (10 : ℝ) ^ (2.24 : ℝ) / Mw ^ (2.56 : ℝ)

/-- `helper_functions.calc_rd`: the four-piece linear/constant depth curve. -/
def calc_rd (depth : ℚ) : ℚ :=
  if depth ≤ 9.15 then 1 - 0.00765 * depth
  else if 9.15 < depth ∧ depth < 23 then 1.174 - 0.0267 * depth
  else if 23 ≤ depth ∧ depth < 30 then 0.744 - 0.008 * depth
  else 0.5

/-- `helper_functions.calc_csr`: `0.65 * pga * normal_stress * rd`. -/
noncomputable def calc_csr (pga normal_stress rd : ℝ) : ℝ :=
  0.65 * pga * normal_stress * rd

/-- `helper_functions.check_safety`: safe when the safety factor reaches the
limit, the water table is below the query depth, or the governing layer has
plasticity index above 12. -/
noncomputable def check_safety (soil_profile : SoilProfile) (depth : ℚ)
    (safety_factor limit_safety_factor : ℝ) : Bool :=
  let gwt := soil_profile.ground_water_level
  let plasticity := (soil_profile.get_layer_at_depth depth).plasticity_index
  decide (limit_safety_factor ≤ safety_factor) || decide (depth < gwt) ||
    decide ((12 : ℚ) < plasticity)

end HF

namespace Settlement

/-- Fit constant `a0` of `LiquefactionSettlement`. -/
def a0 : ℝ := 0.3773
/-- Fit constant `a1`. -/
def a1 : ℝ := -0.0337
/-- Fit constant `a2`. -/
def a2 : ℝ := 1.5672
/-- Fit constant `a3`. -/
def a3 : ℝ := -0.1833
/-- Fit constant `b0`. -/
def b0 : ℝ := 28.45
/-- Fit constant `b1`. -/
def b1 : ℝ := -9.3372
/-- Fit constant `b2`. -/
def b2 : ℝ := 0.7975

/-- Lookup abscissa/ordinate table `(n90_list, q_list)` shared by the
settlement conversions. -/
def n90_q_table : List (ℚ × ℚ) :=
  [(3, 33), (6, 45), (10, 60), (14, 80), (25, 147), (30, 200)]

/-- The relative-density table paired with the same `q_list` would be used by
`dr_to_qci`; recorded here for completeness. -/
def dr_q_table : List (ℚ × ℚ) :=
  [(30, 33), (40, 45), (50, 60), (60, 80), (70, 147), (80, 200)]

/-- Scalar `np.interp`: linear interpolation against a table of
`(x, f x)` pairs, clamped to the edge values outside the table range. -/
def np_interp (x : ℚ) : List (ℚ × ℚ) → ℚ
  | [] => 0
  | [(_, f1)] => f1
  | (x1, f1) :: (x2, f2) :: rest =>
    if x ≤ x1 then f1
    else if x ≤ x2 then f1 + (f2 - f1) * (x - x1) / (x2 - x1)
    else np_interp x ((x2, f2) :: rest)

/-- `LiquefactionSettlement.n90_to_qci` evaluates
`np.interp(n90, self.n90_list, self.q_list)[0]`.  With a scalar first
argument `np.interp` returns a `numpy.float64` scalar, and subscripting it
with `[0]` raises `TypeError` on every call, so this conversion never
produces a value. -/
def n90_to_qci (_n90 : ℤ) : Except String ℚ :=
  Except.error "TypeError: numpy.float64 object is not subscriptable"

/-- `LiquefactionSettlement.calc_relative_density`:
`17.974 * (vs1c / 100) ** 1.976`. -/
noncomputable def calc_relative_density (vs1c : ℝ) : ℝ :=
  17.974 * (vs1c / 100) ^ (1.976 : ℝ)

/-- `LiquefactionSettlement.dr_to_qci` evaluates
`np.interp(relative_density, self.relative_densities, self.q_list)[0]` and,
exactly as in `n90_to_qci`, the `[0]` subscript of the scalar result raises
`TypeError` on every call. -/
def dr_to_qci (_relative_density : ℝ) : Except String ℚ :=
  Except.error "TypeError: numpy.float64 object is not subscriptable"

/-- `LiquefactionSettlement.calc_volumetric_strain`: zero above safety factor
2, the minimum of the two fitted curves in the blending interval, and the
quadratic curve `b0 + b1 ln q + b2 (ln q)^2` otherwise. -/
noncomputable def calc_volumetric_strain
    (corrected_tip_resistance safety_factor : ℝ) : ℝ :=
  let lq := Real.log corrected_tip_resistance
  if 2 < safety_factor then 0
  else if 2 - 1 / (a2 + a3 * lq) < safety_factor ∧ safety_factor < 2 then
    let s1 := (a0 + a1 * lq) / (1 / (2 - safety_factor) - (a2 + a3 * lq))
    let s2 := b0 + b1 * lq + b2 * lq ^ 2
    min s1 s2
  else
    b0 + b1 * lq + b2 * lq ^ 2

/-- `LiquefactionSettlement.calc_settlement_via_n90`: clamp the blow count to
`[3, 30]` (Python `int()` truncates; the clamped value is positive, so this
is the floor), convert through `n90_to_qci`, then scale the strain by the
layer thickness. -/
noncomputable def calc_settlement_via_n90
    (safety_factor layer_thickness : ℝ) (n90 : ℚ) : Except String ℝ :=
  let n90c : ℤ := ⌊min (max n90 3) 30⌋
  (n90_to_qci n90c).map fun qci =>
    calc_volumetric_strain (qci : ℝ) safety_factor * layer_thickness

/-- `LiquefactionSettlement.calc_settlement_via_vs1c`: relative density from
`vs1c`, clamped to `[30, 90]`, converted through `dr_to_qci`, then the strain
scaled by the layer thickness. -/
noncomputable def calc_settlement_via_vs1c
    (safety_factor layer_thickness vs1c : ℝ) : Except String ℝ :=
  let relative_density := calc_relative_density vs1c
  let rdc := min (max relative_density 30) 90
  (dr_to_qci rdc).map fun qci =>
    calc_volumetric_strain (qci : ℝ) safety_factor * layer_thickness

/-- `LiquefactionSettlement.calc_settlement_via_qci`: the strain at the given
index, scaled by the layer thickness. -/
noncomputable def calc_settlement_via_qci
    (safety_factor layer_thickness qci : ℝ) : ℝ :=
  calc_volumetric_strain qci safety_factor * layer_thickness

end Settlement

namespace SptIdriss

/-- `spt/idriss.calc_rd`, identical to the helper version. -/
def calc_rd (depth : ℚ) : ℚ :=
  if depth ≤ 9.15 then 1 - 0.00765 * depth
  else if 9.15 < depth ∧ depth < 23 then 1.174 - 0.0267 * depth
  else if 23 ≤ depth ∧ depth < 30 then 0.744 - 0.008 * depth
  else 0.5

/-- `spt/idriss.calc_settlement`: the pipeline-local settlement, which uses
`float(np.interp(...))` (no faulty subscript) and therefore does produce a
value:-clamp the blow count to `[3, 30]`, interpolate `q`, then apply the
strain curves and scale by the layer thickness. -/
noncomputable def calc_settlement
    (safety_factor layer_thickness : ℝ) (n90 : ℚ) : ℝ :=
  let n90c : ℚ := (⌊min (max n90 3) 30⌋ : ℤ)
  let q : ℝ := (Settlement.np_interp n90c Settlement.n90_q_table : ℝ)
  let lq := Real.log q
  let strain : ℝ :=
    if 2 < safety_factor then 0
    else if 2 - 1 / (Settlement.a2 + Settlement.a3 * lq) < safety_factor ∧
        safety_factor < 2 then
      let s1 := (Settlement.a0 + Settlement.a1 * lq) /
        (1 / (2 - safety_factor) - (Settlement.a2 + Settlement.a3 * lq))
      let s2 := Settlement.b0 + Settlement.b1 * lq + Settlement.b2 * lq ^ 2
      min s1 s2
    else
      Settlement.b0 + Settlement.b1 * lq + Settlement.b2 * lq ^ 2
  strain * layer_thickness

/-- `spt/idriss.calc_crr`: raises for `n160f >= 34`, otherwise returns
`(crr75, crr75 * MSF)` with the rational CRR7.5 formula scaled by the
effective stress. -/
def calc_crr (n160f effective_stress MSF : ℚ) : Except String (ℚ × ℚ) :=
  if 34 ≤ n160f then
    Except.error "The corrected N160 value should be less than 34."
  else
    let crr75 := effective_stress *
      (1 / (34 - n160f) + n160f / 135 + 50 / (10 * n160f + 45) ^ 2 - 0.005)
    Except.ok (crr75, crr75 * MSF)

/-- `spt/idriss.analyse_liquefaction`: computes the magnitude scaling factor
and then evaluates `soil_profile.ground_water_table`.  `SoilProfile` defines
only `ground_water_level`, so this attribute access raises `AttributeError`
before any experiment record is analysed, for every input. -/
noncomputable def analyse_liquefaction (_soil_profile : SoilProfile)
    (_spt_log : SPTLog) (Mw _pga : ℝ) : Except String (List LayerResult) :=
  let _MSF := (10 : ℝ) ^ (2.24 : ℝ) / Mw ^ (2.56 : ℝ)
  Except.error "AttributeError: SoilProfile object has no attribute ground_water_table"

end SptIdriss

namespace Masw

/-- `masw/andrus_stokoe.calc_crr`. -/
noncomputable def calc_crr (vs1 vs1c effective_stress MSF : ℝ) : ℝ × ℝ :=
  let crr75 := effective_stress *
    (0.03 * (vs1 / 100) ^ 2 + 0.09 * (vs1c - vs1) - 0.09 / vs1c)
  (crr75, crr75 * MSF)

/-- `masw/andrus_stokoe.calc_vs1c`: limiting velocity by fines content. -/
def calc_vs1c (fine_content : ℚ) : ℚ :=
  if fine_content ≤ 5 then 215
  else if 5 < fine_content ∧ fine_content ≤ 35 then
    215 - 0.5 * (fine_content - 5)
  else 200

/-- `masw/andrus_stokoe.calc_cn`: `min(1.7, 3.16 * (1 / es) ** 0.5)`. -/
noncomputable def calc_cn (effective_stress : ℝ) : ℝ :=
  min 1.7 (3.16 * (1 / effective_stress) ^ (0.5 : ℝ))

/-- `masw/andrus_stokoe.analyse_for_layer`: computes `rd` at the governing
layer's bottom depth, the stresses, `cn`, `vs1c` and `vs1`; when
`vs1 >= vs1c` it returns the non-liquefiable record directly, otherwise it
computes CRR, the safety factor and the settlement (the latter through
`calc_settlement_via_vs1c`, which fails on its interpolation subscript). -/
noncomputable def analyse_for_layer (soil_profile : SoilProfile)
    (exp : MASWExp) (depth : ℚ) (MSF pga : ℝ)
    (limit_safety_factor : ℝ := 1.1) : Except String LayerResult :=
  let soil_layer := soil_profile.get_layer_at_depth depth
  let fine_content := soil_layer.fine_content
  let vs : ℝ := (exp.shear_wave_velocity : ℝ)
  let rd : ℝ := (HF.calc_rd soil_layer.depth : ℝ)
  let effective_stress : ℝ := (soil_profile.calc_effective_stress depth : ℝ)
  let normal_stress : ℝ := (soil_profile.calc_normal_stress depth : ℝ)
  let cn := calc_cn effective_stress
  let vs1c : ℝ := (calc_vs1c fine_content : ℝ)
  let vs1 := vs * cn
  let csr := HF.calc_csr pga normal_stress rd
  if vs1c ≤ vs1 then
    Except.ok
      { CSR := csr, CRR75 := 0, CRR := 0, rd := rd,
        normalStress := normal_stress, effectiveStress := effective_stress,
        safetyFactor := 0, settlement := 0, is_safe := true }
  else
    let (crr75, crr) := calc_crr vs1 vs1c effective_stress MSF
    let safety_factor := crr / csr
    let is_safe := HF.check_safety soil_profile depth safety_factor
      limit_safety_factor
    (Settlement.calc_settlement_via_vs1c safety_factor (soil_layer.t : ℝ)
        vs1c).map fun settlement =>
      { CSR := csr, CRR75 := crr75, CRR := crr, rd := rd,
        normalStress := normal_stress, effectiveStress := effective_stress,
        safetyFactor := safety_factor, settlement := settlement,
        is_safe := is_safe }

/-- `masw/andrus_stokoe.analyse_liquefaction`: one result per depth of the
union of layer bottoms and measurement depths, each depth analysed with the
record returned by `get_exp_at_depth` (an empty log would raise
`IndexError`). -/
noncomputable def analyse_liquefaction (soil_profile : SoilProfile)
    (masw_log : MASWLog) (Mw pga : ℝ) : List (Except String LayerResult) :=
  let MSF := HF.calc_msf Mw
  (get_all_depths (soil_profile.layers.map (·.depth))
      (masw_log.exps.map (·.depth))).map fun depth =>
    match masw_log.get_exp_at_depth depth with
    | none => Except.error "IndexError: list index out of range"
    | some exp => analyse_for_layer soil_profile exp depth MSF pga

end Masw

namespace CptBI

/-- One step of the exponent iteration of `cpt/boulanger_idriss.calc_cn`:
from the current exponent `m` compute the trial stress correction
`cn = (10.132 / es) ** m`, the trial normalized resistance, the fines
increment and the new exponent `m_new = 1.338 - 0.249 * qc1ncs0 ** 0.264`.
`math.pow` with a positive base agrees with `Real.rpow`, which is used for
the non-integer exponents. -/
noncomputable def cn_m_new (m qcn es fine_content : ℝ) : ℝ :=
  let cn := (10.132 / es) ^ m
  let qc1n0 := qcn * cn
  let dqc1n0 := (11.9 + qc1n0 / 14.6) *
    Real.exp (1.63 - 9.7 / (fine_content + 2) - (15.7 / (fine_content + 2)) ^ 2)
  let qc1ncs0 := qc1n0 + dqc1n0
  1.338 - 0.249 * qc1ncs0 ^ (0.264 : ℝ)

/-- `cpt/boulanger_idriss.calc_cn`: floor the effective stress at `0.1`,
iterate the exponent until `|m_new - m| <= 0.001`, and on convergence return
`min(1.7, (100 / es) ** m)` for the current exponent `m`.  The Python
function recurses with no iteration cap; the explicit `fuel` argument makes
the recursion well founded, with `none` meaning the recursion has not
converged within `fuel` calls. -/
noncomputable def calc_cn :
    ℕ → ℝ → ℝ → ℝ → ℝ → Option ℝ
  | 0, _, _, _, _ => none
  | fuel + 1, m, qcn, effective_stress, fine_content =>
    let es := max effective_stress 0.1
    let m_new := cn_m_new m qcn es fine_content
    if 0.001 < |m_new - m| then calc_cn fuel m_new qcn es fine_content
    else some (min 1.7 ((100 / es) ^ m))

/-- The recursion depth at which CPython aborts a recursive call with
`RecursionError` (the default `sys.getrecursionlimit()`); used as the fuel
for `calc_cn` inside the pipeline. -/
def pythonRecursionLimit : ℕ := 1000

/-- `cpt/boulanger_idriss.calc_qc1ncs`: fines correction of the normalized
resistance, clamped to `[21, 254]`. -/
noncomputable def calc_qc1ncs (qcn fine_content cn : ℝ) : ℝ :=
  let qc1n := cn * qcn
  let dqc1n := (11.9 + qc1n / 14.6) *
    Real.exp (1.63 - 9.7 / (fine_content + 2) - (15.7 / (fine_content + 2)) ^ 2)
  max (min (qc1n + dqc1n) 254) 21

/-- `cpt/boulanger_idriss.calc_rd`: depth/magnitude exponential form. -/
noncomputable def calc_rd (depth Mw : ℝ) : ℝ :=
  if depth ≤ 34 then
    let az := -1.012 - 1.126 * Real.sin (depth / 11.73 + 5.133)
    let bz := 0.106 + 0.118 * Real.sin (depth / 11.28 + 5.142)
    Real.exp (az + bz * Mw)
  else 0.12 * Real.exp (0.22 * Mw)

/-- `cpt/boulanger_idriss.calc_msf`: resistance-dependent magnitude scaling
variant. -/
noncomputable def calc_msf (Mw qc1ncs : ℝ) : ℝ :=
  let msf_max := min 2.2 (1.09 + (qc1ncs / 180) ^ 3)
  1 + (msf_max - 1) * (8.64 * Real.exp (-Mw / 4) - 1.325)

/-- `cpt/boulanger_idriss.calc_cg`. -/
noncomputable def calc_cg (qc1ncs : ℝ) : ℝ :=
  min 0.3 (1 / (37.3 - 8.27 * qc1ncs ^ (0.264 : ℝ)))

/-- `cpt/boulanger_idriss.calc_kg`: stress correction factor, capped at 1.1. -/
noncomputable def calc_kg (cg effective_stress : ℝ) : ℝ :=
  min 1.1 (1 - cg * Real.log (effective_stress / 101.32))

/-- `cpt/boulanger_idriss.calc_crr`. -/
noncomputable def calc_crr (kg qc1ncs msf effective_stress : ℝ) : ℝ × ℝ :=
  let crr75 := kg *
    Real.exp (qc1ncs / 113 + (qc1ncs / 1000) ^ 2 - (qc1ncs / 140) ^ 3 +
      (qc1ncs / 137) ^ 4 - 2.8) * effective_stress
  (crr75, msf * crr75)

/-- `cpt/boulanger_idriss.analyse_for_layer`.  `none` models the
`RecursionError` raised when the `calc_cn` iteration does not converge
within the interpreter recursion limit. -/
noncomputable def analyse_for_layer (soil_profile : SoilProfile)
    (exp : CPTExp) (depth : ℚ) (MSF pga Mw : ℝ)
    (limit_safety_factor : ℝ := 1.1) : Option LayerResult :=
  let rd := calc_rd (depth : ℝ) Mw
  let effective_stress : ℝ := (soil_profile.calc_effective_stress depth : ℝ)
  let normal_stress : ℝ := (soil_profile.calc_normal_stress depth : ℝ)
  let soil_layer := soil_profile.get_layer_at_depth depth
  (calc_cn pythonRecursionLimit 0.5 (exp.cone_resistance : ℝ)
      effective_stress (soil_layer.fine_content : ℝ)).map fun cn =>
    let qc1ncs := calc_qc1ncs (exp.cone_resistance : ℝ)
      (soil_layer.fine_content : ℝ) cn
    let cg := calc_cg qc1ncs
    let kg := calc_kg cg effective_stress
    let csr := HF.calc_csr pga normal_stress rd
    let (crr75, crr) := calc_crr kg qc1ncs MSF effective_stress
    let safety_factor := csr / crr
    let is_safe := HF.check_safety soil_profile depth safety_factor
      limit_safety_factor
    let settlement := Settlement.calc_settlement_via_qci safety_factor
      (soil_layer.t : ℝ) qc1ncs
    { CSR := csr, CRR75 := crr75, CRR := crr, rd := rd,
      normalStress := normal_stress, effectiveStress := effective_stress,
      safetyFactor := safety_factor, settlement := settlement,
      is_safe := is_safe }

/-- `cpt/boulanger_idriss.analyse_liquefaction`: one result per depth of the
sorted union of layer bottoms and measurement depths. -/
noncomputable def analyse_liquefaction (soil_profile : SoilProfile)
    (cpt_log : CPTLog) (Mw pga : ℝ) : List (Option LayerResult) :=
  let MSF := HF.calc_msf Mw
  (get_all_depths (soil_profile.layers.map (·.depth))
      (cpt_log.exps.map (·.depth))).map fun depth =>
    (cpt_log.get_exp_at_depth depth).bind fun exp =>
      analyse_for_layer soil_profile exp depth MSF pga Mw

end CptBI

/-- Total thickness of a layer stack (the profile's bottom depth). -/
def total_thickness (ls : List SoilLayer) : ℚ := (ls.map SoilLayer.t).sum

/-- Specification-side description of the normal stress, following the
spec's words: the sum, over all layers, of unit weight times the thickness
of the part of the layer that lies above the query depth, with the dry
weight for the part above the water table and the saturated weight for the
part below it (clamped pieces, so layers entirely below the query depth
contribute nothing). -/
def normal_stress_spec (gwl d : ℚ) : List SoilLayer → ℚ → ℚ
  | [], _ => 0
  | l :: ls, top =>
    l.dry_unit_weight * max 0 (min (min (top + l.t) d) gwl - top) +
      l.saturated_unit_weight * max 0 (min (top + l.t) d - max top gwl) +
      normal_stress_spec gwl d ls (top + l.t)

/-- The layer list of the end-to-end SPT scenario: thicknesses 2, 5, 15,
dry/saturated unit weights 16/18 in every layer. -/
def scenarioLayersC2 : List SoilLayer :=
  [{ thickness := some 2, dry_unit_weight := 16, saturated_unit_weight := 18 },
   { thickness := some 5, dry_unit_weight := 16, saturated_unit_weight := 18 },
   { thickness := some 15, dry_unit_weight := 16, saturated_unit_weight := 18 }]

/-- The profile built by the end-to-end SPT scenario: three layers of
thickness 2, 5, 15 and unit weights 16/18, water table at 1, with the
computed bottom depths 2, 7, 22 and centers 1, 4.5, 14.5. -/
def scenarioProfileC2 : SoilProfile :=
  ⟨[⟨some 2, 16, 18, 2, 1, 0, 0⟩, ⟨some 5, 16, 18, 7, 4.5, 0, 0⟩,
    ⟨some 15, 16, 18, 22, 14.5, 0, 0⟩], 1⟩

/-- A one-layer profile (thickness 2, unit weights 16/18, water table at 1)
with its computed depth fields. -/
def oneLayerProfileC5 : SoilProfile := ⟨[⟨some 2, 16, 18, 2, 1, 0, 0⟩], 1⟩

/-- A one-layer profile with unit weight 1 and deep water table, giving unit
effective stress at depth 1; used to exercise the MASW short-circuit. -/
def maswProfileC10 : SoilProfile := ⟨[⟨some 2, 1, 1, 2, 1, 0, 0⟩], 5⟩

/-- Concrete CPT log used to instantiate the lookup characterization. -/
def cptLogC3 : CPTLog := ⟨[⟨1, 10⟩, ⟨2, 20⟩, ⟨4, 40⟩]⟩

/-- Concrete MASW log used to instantiate the lookup characterization. -/
def maswLogC3 : MASWLog := ⟨[⟨1, 100⟩, ⟨2, 200⟩, ⟨4, 400⟩]⟩

/-! Helper lemmas about the record lookup loop. -/

theorem findExpIdx_none_iff (d : ℚ) :
    ∀ ds : List ℚ, findExpIdx d ds = none ↔ ∀ x ∈ ds, x < d
  | [] => by simp [findExpIdx]
  | x :: xs => by
    rw [findExpIdx]
    by_cases h : d ≤ x
    · rw [if_pos h]
      simp only [reduceCtorEq, false_iff]
      intro hall
      exact absurd (hall x (List.mem_cons_self x xs)) (not_lt.mpr h)
    · rw [if_neg h]
      rw [Option.map_eq_none', findExpIdx_none_iff d xs]
      simp only [List.mem_cons, forall_eq_or_imp, iff_and_self]
      exact fun _ => not_le.mp h

theorem findExpIdx_zero (d x : ℚ) (xs : List ℚ) (h : d ≤ x) :
    findExpIdx d (x :: xs) = some 0 := by
  rw [findExpIdx, if_pos h]

theorem findExpIdx_succ_of (d : ℚ) :
    ∀ (ds : List ℚ) (i : ℕ) (hi : i + 1 < ds.length),
      (∀ (j : ℕ) (hj : j < ds.length), j ≤ i → ds.get ⟨j, hj⟩ < d) →
      d ≤ ds.get ⟨i + 1, hi⟩ → findExpIdx d ds = some (i + 1)
  | [], i, hi, _, _ => by simp at hi
  | x :: xs, 0, hi, hall, hge => by
    have h0 : x < d := hall 0 (by simp) le_rfl
    rw [findExpIdx, if_neg (not_le.mpr h0)]
    cases xs with
    | nil => simp at hi
    | cons y ys =>
      have hy : d ≤ y := hge
      rw [findExpIdx_zero d y ys hy]
      rfl
  | x :: xs, i + 1, hi, hall, hge => by
    have h0 : x < d := hall 0 (by simp) (Nat.zero_le _)
    rw [findExpIdx, if_neg (not_le.mpr h0)]
    have hi' : i + 1 < xs.length := Nat.succ_lt_succ_iff.mp hi
    have hall' : ∀ (j : ℕ) (hj : j < xs.length), j ≤ i → xs.get ⟨j, hj⟩ < d :=
      fun j hj hji => hall (j + 1) (Nat.succ_lt_succ hj) (Nat.succ_le_succ hji)
    have hge' : d ≤ xs.get ⟨i + 1, hi'⟩ := hge
    rw [findExpIdx_succ_of d xs i hi' hall' hge']
    rfl

/-! Claim theorems. -/

/-- C8 counterexample: the claim asserts that a non-positive layer thickness
is rejected at construction, but a profile whose only layer has thickness 0
is constructed without error. -/
theorem c8_counterexample :
    ∃ p : SoilProfile,
      SoilProfile.create
        [{ thickness := some 0, dry_unit_weight := 16,
           saturated_unit_weight := 18 }] 1 = Except.ok p :=
  ⟨_, rfl⟩

/-- C8 (amended): constructing a `SoilProfile` fails with a configuration
error if and only if the layer list is empty or some layer's thickness is
undefined (`None`); non-positive thicknesses are not checked. -/
theorem c8_create_error_iff (layers : List SoilLayer) (gwl : ℚ) :
    (∃ e, SoilProfile.create layers gwl = Except.error e) ↔
      layers = [] ∨ ∃ l ∈ layers, l.thickness = none := by
  by_cases h1 : layers = []
  · subst h1
    simp [SoilProfile.create]
  · by_cases h2 : ∃ l ∈ layers, l.thickness = none
    · have : layers.any (fun l => l.thickness = none) = true := by
        rw [List.any_eq_true]
        obtain ⟨l, hl, hnone⟩ := h2
        exact ⟨l, hl, by simp [hnone]⟩
      simp [SoilProfile.create, h1, h2, this, List.isEmpty_iff]
    · have : layers.any (fun l => l.thickness = none) = false := by
        rw [List.any_eq_false]
        intro l hl
        simp only [decide_eq_true_eq]
        exact fun hnone => h2 ⟨l, hl, hnone⟩
      simp [SoilProfile.create, h1, h2, this, List.isEmpty_iff]

/-- C9: the SPT CRR formula raises the domain error exactly when
`n160f ≥ 34`; at `n160f = 33.999` it returns `(crr75, crr75 * MSF)` with the
rational CRR7.5 formula. -/
theorem c9_crr_domain (n160f effective_stress MSF : ℚ) :
    ((∃ e, SptIdriss.calc_crr n160f effective_stress MSF = Except.error e) ↔
      34 ≤ n160f) ∧
    SptIdriss.calc_crr 33.999 effective_stress MSF =
      Except.ok
        (effective_stress * (1 / (34 - 33.999) + 33.999 / 135 +
            50 / (10 * 33.999 + 45) ^ 2 - 0.005),
          effective_stress * (1 / (34 - 33.999) + 33.999 / 135 +
            50 / (10 * 33.999 + 45) ^ 2 - 0.005) * MSF) := by
  constructor
  · by_cases h : 34 ≤ n160f <;> simp [SptIdriss.calc_crr, h]
  · have h : ¬(34 : ℚ) ≤ 33.999 := by norm_num
    simp [SptIdriss.calc_crr, h]

/-- C4: for every safety factor above 2 the direct qci-based derivation and
the SPT pipeline's local blow-count settlement return 0, but the settlement
object's n90-based and vs1c-based derivations raise a `TypeError` from the
subscripted scalar interpolation before the safety factor is ever
consulted. -/
theorem c4_settlement_above_two (sf t vs1c qci : ℝ) (n90 : ℚ)
    (h : 2 < sf) :
    Settlement.calc_settlement_via_qci sf t qci = 0 ∧
    SptIdriss.calc_settlement sf t n90 = 0 ∧
    (∃ e, Settlement.calc_settlement_via_n90 sf t n90 = Except.error e) ∧
    (∃ e, Settlement.calc_settlement_via_vs1c sf t vs1c = Except.error e) := by
  refine ⟨?_, ?_, ⟨_, rfl⟩, ⟨_, rfl⟩⟩
  · simp [Settlement.calc_settlement_via_qci,
      Settlement.calc_volumetric_strain, if_pos h]
  · simp [SptIdriss.calc_settlement, if_pos h]

/-- C4 witness: the settlement conclusions at safety factor 3, layer
thickness 1, blow count 10, limiting velocity 200 and index 50. -/
theorem c4_witness :
    (2 : ℝ) < 3 ∧
      (Settlement.calc_settlement_via_qci 3 1 50 = 0 ∧
        SptIdriss.calc_settlement 3 1 10 = 0 ∧
        (∃ e, Settlement.calc_settlement_via_n90 3 1 10 = Except.error e) ∧
        (∃ e, Settlement.calc_settlement_via_vs1c 3 1 200 = Except.error e)) :=
  ⟨by norm_num, c4_settlement_above_two 3 1 200 50 10 (by norm_num)⟩

/-- C3 counterexample: in the log with records at depths 1 and 2, a query at
depth 2 returns the record at depth 1 — the predecessor — not the record at
depth 2 that the claim requires. -/
theorem c3_counterexample :
    CPTLog.get_exp_at_depth ⟨[⟨1, 10⟩, ⟨2, 20⟩]⟩ 2 = some ⟨1, 10⟩ ∧
      CPTLog.get_exp_at_depth ⟨[⟨1, 10⟩, ⟨2, 20⟩]⟩ 2 ≠ some ⟨2, 20⟩ := by
  decide

/-- C3 (amended): for a strictly depth-sorted log, `get_exp_at_depth`
returns the record preceding the first record at least as deep as the query,
that is the deepest record strictly shallower than the query depth; when the
query is at or above the first record's depth, and also when the query is
deeper than every record, it returns the log's last record (Python's `-1`
index).  In particular a query at a record's exact depth yields that
record's predecessor, not the record itself.  Both the CPT and the MASW
logs behave this way. -/
theorem c3_step_lookup (clog : CPTLog) (mlog : MASWLog) (d : ℚ)
    (hcs : (clog.exps.map (·.depth)).Pairwise (· < ·))
    (hms : (mlog.exps.map (·.depth)).Pairwise (· < ·)) :
    (((∀ e ∈ clog.exps, e.depth < d) →
        clog.get_exp_at_depth d = clog.exps.getLast?) ∧
      (∀ e0, clog.exps.head? = some e0 → d ≤ e0.depth →
        clog.get_exp_at_depth d = clog.exps.getLast?) ∧
      (∀ (i : ℕ) (hi : i + 1 < clog.exps.length),
        (clog.exps.get ⟨i, Nat.lt_of_succ_lt hi⟩).depth < d →
        d ≤ (clog.exps.get ⟨i + 1, hi⟩).depth →
        clog.get_exp_at_depth d =
          some (clog.exps.get ⟨i, Nat.lt_of_succ_lt hi⟩))) ∧
    ((∀ e ∈ mlog.exps, e.depth < d) →
        mlog.get_exp_at_depth d = mlog.exps.getLast?) ∧
      (∀ e0, mlog.exps.head? = some e0 → d ≤ e0.depth →
        mlog.get_exp_at_depth d = mlog.exps.getLast?) ∧
      (∀ (i : ℕ) (hi : i + 1 < mlog.exps.length),
        (mlog.exps.get ⟨i, Nat.lt_of_succ_lt hi⟩).depth < d →
        d ≤ (mlog.exps.get ⟨i + 1, hi⟩).depth →
        mlog.get_exp_at_depth d =
          some (mlog.exps.get ⟨i, Nat.lt_of_succ_lt hi⟩)) := by
  constructor
  · refine ⟨?_, ?_, ?_⟩
    · intro hall
      have hnone : findExpIdx d (clog.exps.map (·.depth)) = none := by
        rw [findExpIdx_none_iff]
        intro x hx
        obtain ⟨e, he, rfl⟩ := List.mem_map.mp hx
        exact hall e he
      rw [CPTLog.get_exp_at_depth, hnone]
    · intro e0 h0 hd
      cases hexp : clog.exps with
      | nil => rw [hexp] at h0; simp at h0
      | cons e es =>
        rw [hexp] at h0
        have he : e = e0 := by simpa using h0
        subst he
        rw [CPTLog.get_exp_at_depth, hexp]
        rw [List.map_cons, findExpIdx_zero _ _ _ hd]
    · intro i hi hlt hge
      have hfind : findExpIdx d (clog.exps.map (·.depth)) = some (i + 1) := by
        apply findExpIdx_succ_of d _ i (by simpa using hi)
        · intro j hj hji
          have hj' : j < clog.exps.length := by simpa using hj
          rw [List.get_map]
          rcases Nat.lt_or_ge j i with hcase | hcase
          · have := List.pairwise_iff_get.mp hcs ⟨j, hj⟩
              ⟨i, by simpa using Nat.lt_of_succ_lt hi⟩ hcase
            rw [List.get_map, List.get_map] at this
            exact lt_trans this hlt
          · have hj_eq : j = i := le_antisymm hji hcase
            subst hj_eq
            exact hlt
        · rw [List.get_map]
          exact hge
      rw [CPTLog.get_exp_at_depth, hfind]
      exact List.get?_eq_get _
  · refine ⟨?_, ?_, ?_⟩
    · intro hall
      have hnone : findExpIdx d (mlog.exps.map (·.depth)) = none := by
        rw [findExpIdx_none_iff]
        intro x hx
        obtain ⟨e, he, rfl⟩ := List.mem_map.mp hx
        exact hall e he
      rw [MASWLog.get_exp_at_depth, hnone]
    · intro e0 h0 hd
      cases hexp : mlog.exps with
      | nil => rw [hexp] at h0; simp at h0
      | cons e es =>
        rw [hexp] at h0
        have he : e = e0 := by simpa using h0
        subst he
        rw [MASWLog.get_exp_at_depth, hexp]
        rw [List.map_cons, findExpIdx_zero _ _ _ hd]
    · intro i hi hlt hge
      have hfind : findExpIdx d (mlog.exps.map (·.depth)) = some (i + 1) := by
        apply findExpIdx_succ_of d _ i (by simpa using hi)
        · intro j hj hji
          have hj' : j < mlog.exps.length := by simpa using hj
          rw [List.get_map]
          rcases Nat.lt_or_ge j i with hcase | hcase
          · have := List.pairwise_iff_get.mp hms ⟨j, hj⟩
              ⟨i, by simpa using Nat.lt_of_succ_lt hi⟩ hcase
            rw [List.get_map, List.get_map] at this
            exact lt_trans this hlt
          · have hj_eq : j = i := le_antisymm hji hcase
            subst hj_eq
            exact hlt
        · rw [List.get_map]
          exact hge
      rw [MASWLog.get_exp_at_depth, hfind]
      exact List.get?_eq_get _

/-- C3 witness: the lookup characterization applied to concrete CPT and
MASW logs with records at depths 1, 2 and 4, queried at depth 3. -/
theorem c3_witness :
    ((cptLogC3.exps.map (·.depth)).Pairwise (· < ·) ∧
      (maswLogC3.exps.map (·.depth)).Pairwise (· < ·)) ∧
    ((((∀ e ∈ cptLogC3.exps, e.depth < 3) →
        cptLogC3.get_exp_at_depth 3 = cptLogC3.exps.getLast?) ∧
      (∀ e0, cptLogC3.exps.head? = some e0 → (3 : ℚ) ≤ e0.depth →
        cptLogC3.get_exp_at_depth 3 = cptLogC3.exps.getLast?) ∧
      (∀ (i : ℕ) (hi : i + 1 < cptLogC3.exps.length),
        (cptLogC3.exps.get ⟨i, Nat.lt_of_succ_lt hi⟩).depth < 3 →
        (3 : ℚ) ≤ (cptLogC3.exps.get ⟨i + 1, hi⟩).depth →
        cptLogC3.get_exp_at_depth 3 =
          some (cptLogC3.exps.get ⟨i, Nat.lt_of_succ_lt hi⟩))) ∧
      ((∀ e ∈ maswLogC3.exps, e.depth < 3) →
        maswLogC3.get_exp_at_depth 3 = maswLogC3.exps.getLast?) ∧
      (∀ e0, maswLogC3.exps.head? = some e0 → (3 : ℚ) ≤ e0.depth →
        maswLogC3.get_exp_at_depth 3 = maswLogC3.exps.getLast?) ∧
      (∀ (i : ℕ) (hi : i + 1 < maswLogC3.exps.length),
        (maswLogC3.exps.get ⟨i, Nat.lt_of_succ_lt hi⟩).depth < 3 →
        (3 : ℚ) ≤ (maswLogC3.exps.get ⟨i + 1, hi⟩).depth →
        maswLogC3.get_exp_at_depth 3 =
          some (maswLogC3.exps.get ⟨i, Nat.lt_of_succ_lt hi⟩))) :=
  ⟨⟨by decide, by decide⟩,
    c3_step_lookup cptLogC3 maswLogC3 3 (by decide) (by decide)⟩

/-- `get_all_depths` produces a `≤`-sorted list. -/
theorem get_all_depths_sorted (L E : List ℚ) :
    (get_all_depths L E).Sorted (· ≤ ·) :=
  List.sorted_insertionSort _ _

/-- `get_all_depths` produces a duplicate-free list. -/
theorem get_all_depths_nodup (L E : List ℚ) : (get_all_depths L E).Nodup :=
  (List.perm_insertionSort _ _).nodup_iff.mpr (L ++ E).nodup_dedup

/-- Membership in `get_all_depths` is membership in either input list. -/
theorem mem_get_all_depths (L E : List ℚ) (d : ℚ) :
    d ∈ get_all_depths L E ↔ d ∈ L ∨ d ∈ E := by
  rw [get_all_depths]
  rw [(List.perm_insertionSort (· ≤ ·) ((L ++ E).dedup)).mem_iff]
  rw [List.mem_dedup, List.mem_append]

/-- C2: the end-to-end SPT scenario of the spec — layers of thickness 2, 5,
15 with dry/saturated unit weights 16/18, water table at 1, one reading per
layer — constructs a profile whose layer bottoms are 2, 7, 22, but
`analyse_liquefaction` raises `AttributeError` (it reads the non-existent
`ground_water_table` attribute) instead of returning the three result
records the claim promises. -/
theorem c2_spt_end_to_end :
    SoilProfile.create scenarioLayersC2 1 = Except.ok scenarioProfileC2 ∧
    scenarioProfileC2.layers.map SoilLayer.depth = [2, 7, 22] ∧
    ∃ e, SptIdriss.analyse_liquefaction scenarioProfileC2
        ⟨[⟨2, 10, 10, 10, 10, 10⟩, ⟨7, 10, 10, 10, 10, 10⟩,
          ⟨22, 10, 10, 10, 10, 10⟩]⟩ 7.5 0.3 = Except.error e := by
  refine ⟨?_, by decide, ⟨_, rfl⟩⟩
  simp only [SoilProfile.create, calcLayerDepthsGo, SoilLayer.t,
    scenarioProfileC2, scenarioLayersC2]
  norm_num
  rintro (h | h | h) <;> simp at h

/-- C5 counterexample: for the one-layer profile with bottom depth 2 and an
SPT log with a single reading at depth 1, the union of depths is `[1, 2]`,
yet the SPT entry point analyses no depth at all — it fails with
`AttributeError` — so the set of depths it analyses is not the union the
claim requires. -/
theorem c5_counterexample :
    SoilProfile.create
        [{ thickness := some 2, dry_unit_weight := 16,
           saturated_unit_weight := 18 }] 1 = Except.ok oneLayerProfileC5 ∧
    get_all_depths (oneLayerProfileC5.layers.map SoilLayer.depth)
      (([⟨1, 5, 5, 5, 5, 5⟩] : List SptExp).map SptExp.depth) = [1, 2] ∧
    ∃ e, SptIdriss.analyse_liquefaction oneLayerProfileC5
        ⟨[⟨1, 5, 5, 5, 5, 5⟩]⟩ 7.5 0.3 = Except.error e := by
  refine ⟨?_, by decide, ⟨_, rfl⟩⟩
  simp only [SoilProfile.create, calcLayerDepthsGo, SoilLayer.t,
    oneLayerProfileC5]
  norm_num
  intro h
  simp at h

/-- C5 (amended): the CPT and MASW entry points analyse exactly the sorted,
duplicate-free union of layer-bottom depths and measurement depths, with one
result per depth; the SPT entry point does not — it fails on the missing
`ground_water_table` attribute before analysing any depth (and its loop,
were it reached, iterates over the log's records only). -/
theorem c5_depth_enumeration (p : SoilProfile) (clog : CPTLog)
    (mlog : MASWLog) (Mw pga : ℝ) :
    ((get_all_depths (p.layers.map (·.depth))
        (clog.exps.map (·.depth))).Sorted (· ≤ ·) ∧
      (get_all_depths (p.layers.map (·.depth))
        (clog.exps.map (·.depth))).Nodup ∧
      (∀ d, d ∈ get_all_depths (p.layers.map (·.depth))
          (clog.exps.map (·.depth)) ↔
        (∃ l ∈ p.layers, l.depth = d) ∨ ∃ e ∈ clog.exps, e.depth = d) ∧
      (CptBI.analyse_liquefaction p clog Mw pga).length =
        (get_all_depths (p.layers.map (·.depth))
          (clog.exps.map (·.depth))).length) ∧
    ((get_all_depths (p.layers.map (·.depth))
        (mlog.exps.map (·.depth))).Sorted (· ≤ ·) ∧
      (get_all_depths (p.layers.map (·.depth))
        (mlog.exps.map (·.depth))).Nodup ∧
      (∀ d, d ∈ get_all_depths (p.layers.map (·.depth))
          (mlog.exps.map (·.depth)) ↔
        (∃ l ∈ p.layers, l.depth = d) ∨ ∃ e ∈ mlog.exps, e.depth = d) ∧
      (Masw.analyse_liquefaction p mlog Mw pga).length =
        (get_all_depths (p.layers.map (·.depth))
          (mlog.exps.map (·.depth))).length) ∧
    (∀ slog : SPTLog, ∃ e,
      SptIdriss.analyse_liquefaction p slog Mw pga = Except.error e) := by
  refine ⟨⟨get_all_depths_sorted _ _, get_all_depths_nodup _ _, ?_, ?_⟩,
    ⟨get_all_depths_sorted _ _, get_all_depths_nodup _ _, ?_, ?_⟩,
    fun slog => ⟨_, rfl⟩⟩
  · intro d
    rw [mem_get_all_depths]
    simp [List.mem_map]
  · simp [CptBI.analyse_liquefaction]
  · intro d
    rw [mem_get_all_depths]
    simp [List.mem_map]
  · simp [Masw.analyse_liquefaction]

/-- C10: whenever the stress-normalized velocity `vs1 = vs * cn` reaches the
limiting velocity `vs1c`, the MASW per-layer analysis returns exactly the
record with `CRR75 = 0`, `CRR = 0`, `safety_factor = 0`, `settlement = 0`
and `is_safe = true`, while CSR, rd, normal stress and effective stress are
still computed and reported. -/
theorem c10_masw_short_circuit (p : SoilProfile) (exp : MASWExp) (depth : ℚ)
    (MSF pga : ℝ)
    (h : ((Masw.calc_vs1c (p.get_layer_at_depth depth).fine_content : ℚ) : ℝ) ≤
      (exp.shear_wave_velocity : ℝ) *
        Masw.calc_cn ((p.calc_effective_stress depth : ℚ) : ℝ)) :
    Masw.analyse_for_layer p exp depth MSF pga =
      Except.ok
        { CSR := HF.calc_csr pga ((p.calc_normal_stress depth : ℚ) : ℝ)
            ((HF.calc_rd (p.get_layer_at_depth depth).depth : ℚ) : ℝ),
          CRR75 := 0, CRR := 0,
          rd := ((HF.calc_rd (p.get_layer_at_depth depth).depth : ℚ) : ℝ),
          normalStress := ((p.calc_normal_stress depth : ℚ) : ℝ),
          effectiveStress := ((p.calc_effective_stress depth : ℚ) : ℝ),
          safetyFactor := 0, settlement := 0, is_safe := true } := by
  simp only [Masw.analyse_for_layer]
  rw [if_pos h]

/-- C10 witness: the short-circuit record at a concrete one-layer profile
with unit effective stress, where `cn = 1.7` and `vs1 = 1700 ≥ vs1c = 215`. -/
theorem c10_witness :
    (((Masw.calc_vs1c
          (maswProfileC10.get_layer_at_depth 1).fine_content : ℚ) : ℝ) ≤
      ((MASWExp.mk 1 1000).shear_wave_velocity : ℝ) *
        Masw.calc_cn ((maswProfileC10.calc_effective_stress 1 : ℚ) : ℝ)) ∧
    Masw.analyse_for_layer maswProfileC10 (MASWExp.mk 1 1000) 1 1 0.3 =
      Except.ok
        { CSR := HF.calc_csr 0.3
            ((maswProfileC10.calc_normal_stress 1 : ℚ) : ℝ)
            ((HF.calc_rd
              (maswProfileC10.get_layer_at_depth 1).depth : ℚ) : ℝ),
          CRR75 := 0, CRR := 0,
          rd := ((HF.calc_rd
            (maswProfileC10.get_layer_at_depth 1).depth : ℚ) : ℝ),
          normalStress := ((maswProfileC10.calc_normal_stress 1 : ℚ) : ℝ),
          effectiveStress :=
            ((maswProfileC10.calc_effective_stress 1 : ℚ) : ℝ),
          safetyFactor := 0, settlement := 0, is_safe := true } := by
  have hfc : (maswProfileC10.get_layer_at_depth 1).fine_content = 0 := by
    decide
  have hes : maswProfileC10.calc_effective_stress 1 = 1 := by
    simp only [SoilProfile.calc_effective_stress,
      SoilProfile.calc_normal_stress, SoilProfile.get_layer_index,
      findLayerIdx, normalStressGo, SoilLayer.t, maswProfileC10]
    norm_num
  have h : ((Masw.calc_vs1c
        (maswProfileC10.get_layer_at_depth 1).fine_content : ℚ) : ℝ) ≤
      ((MASWExp.mk 1 1000).shear_wave_velocity : ℝ) *
        Masw.calc_cn ((maswProfileC10.calc_effective_stress 1 : ℚ) : ℝ) := by
    rw [hfc, hes]
    simp only [Masw.calc_vs1c, Masw.calc_cn]
    norm_num [Real.one_rpow]
  exact ⟨h, c10_masw_short_circuit maswProfileC10 (MASWExp.mk 1 1000) 1 1 0.3 h⟩

/-- Unfolding equation for one iteration of the Cn solver. -/
theorem calc_cn_succ (fuel : ℕ) (m qcn es fc : ℝ) :
    CptBI.calc_cn (fuel + 1) m qcn es fc =
      if 0.001 < |CptBI.cn_m_new m qcn (max es 0.1) fc - m| then
        CptBI.calc_cn fuel (CptBI.cn_m_new m qcn (max es 0.1) fc) qcn
          (max es 0.1) fc
      else some (min 1.7 ((100 / max es 0.1) ^ m)) := rfl

/-- With zero cone resistance the exponent update does not depend on the
current exponent: the trial resistance `qcn * cn` vanishes. -/
theorem cn_m_new_qcn_zero (m m' es fc : ℝ) :
    CptBI.cn_m_new m 0 es fc = CptBI.cn_m_new m' 0 es fc := by
  simp [CptBI.cn_m_new, zero_mul]

/-- Bounds on the exponent produced by one update from `qcn = 0`,
`es = 10.132`, `fc = 0`: it lies strictly between 1.089 and 1.338. -/
theorem cn_m_new_bounds :
    1.089 < CptBI.cn_m_new 0.5 0 10.132 0 ∧
      CptBI.cn_m_new 0.5 0 10.132 0 < 1.338 := by
  have hEarg : (1.63 - 9.7 / ((0 : ℝ) + 2) - (15.7 / ((0 : ℝ) + 2)) ^ 2) =
      -64.8425 := by norm_num
  have hEpos : 0 < Real.exp (-64.8425 : ℝ) := Real.exp_pos _
  have hEle : Real.exp (-64.8425 : ℝ) ≤ 0.0152 := by
    have h1 : (65.8425 : ℝ) ≤ Real.exp 64.8425 := by
      have := Real.add_one_le_exp (64.8425 : ℝ)
      linarith
    calc Real.exp (-64.8425 : ℝ) = (Real.exp 64.8425)⁻¹ := Real.exp_neg _
      _ ≤ (65.8425 : ℝ)⁻¹ := inv_anti₀ (by norm_num) h1
      _ ≤ 0.0152 := by norm_num
  have hbase0 : (0 : ℝ) < 11.9 * Real.exp (-64.8425 : ℝ) := by positivity
  have hbase1 : 11.9 * Real.exp (-64.8425 : ℝ) < 1 := by nlinarith
  have hs1 : (11.9 * Real.exp (-64.8425 : ℝ)) ^ ((0.264 : ℝ)) < 1 :=
    Real.rpow_lt_one (le_of_lt hbase0) hbase1 (by norm_num)
  have hs0 : (0 : ℝ) < (11.9 * Real.exp (-64.8425 : ℝ)) ^ ((0.264 : ℝ)) :=
    Real.rpow_pos_of_pos hbase0 _
  rw [CptBI.cn_m_new]
  simp only [zero_mul, zero_div, add_zero, zero_add, hEarg]
  constructor <;> nlinarith [hs1, hs0]

/-- A concrete convergent run of the Cn solver: with `qcn = 0`,
`es = 10.132` and `fc = 0` the iteration converges at the second step and
returns 1.7. -/
theorem calc_cn_qcn_zero_run : CptBI.calc_cn 3 0.5 0 10.132 0 = some 1.7 := by
  have hmax : max (10.132 : ℝ) 0.1 = 10.132 := by norm_num
  have hMgt : 1.089 < CptBI.cn_m_new 0.5 0 10.132 0 := cn_m_new_bounds.1
  have hMlt : CptBI.cn_m_new 0.5 0 10.132 0 < 1.338 := cn_m_new_bounds.2
  have hM2 : CptBI.cn_m_new (CptBI.cn_m_new 0.5 0 10.132 0) 0 10.132 0 =
      CptBI.cn_m_new 0.5 0 10.132 0 :=
    cn_m_new_qcn_zero _ 0.5 10.132 0
  have step1 : CptBI.calc_cn 3 0.5 0 10.132 0 =
      CptBI.calc_cn 2 (CptBI.cn_m_new 0.5 0 10.132 0) 0 10.132 0 := by
    rw [show (3 : ℕ) = 2 + 1 by norm_num, calc_cn_succ, hmax, if_pos]
    rw [abs_of_pos (by linarith)]
    linarith
  have step2 : CptBI.calc_cn 2 (CptBI.cn_m_new 0.5 0 10.132 0) 0 10.132 0 =
      some (min 1.7 ((100 / (10.132 : ℝ)) ^ CptBI.cn_m_new 0.5 0 10.132 0)) := by
    rw [show (2 : ℕ) = 1 + 1 by norm_num, calc_cn_succ, hmax, hM2, if_neg]
    rw [sub_self, abs_zero]
    norm_num
  have hmin : min (1.7 : ℝ)
      ((100 / (10.132 : ℝ)) ^ CptBI.cn_m_new 0.5 0 10.132 0) = 1.7 := by
    apply min_eq_left
    have h1M : (1 : ℝ) ≤ CptBI.cn_m_new 0.5 0 10.132 0 := by linarith
    have hb1 : (1 : ℝ) ≤ 100 / 10.132 := by norm_num
    have hexp := Real.rpow_le_rpow_of_exponent_le hb1 h1M
    rw [Real.rpow_one] at hexp
    have : (1.7 : ℝ) ≤ 100 / 10.132 := by norm_num
    linarith
  rw [step1, step2, hmin]

/-- C1 (amended): whenever the Cn solver converges, the value returned is
`min(1.7, (100 / es) ^ m)` for the converged exponent `m` (with the
effective stress floored at 0.1); the base 10.132 appears only inside the
iteration, not in the returned correction factor. -/
theorem c1_cn_converged_value :
    ∀ (fuel : ℕ) (m qcn es fc r : ℝ),
      CptBI.calc_cn fuel m qcn es fc = some r →
      ∃ m', |CptBI.cn_m_new m' qcn (max es 0.1) fc - m'| ≤ 0.001 ∧
        r = min 1.7 ((100 / max es 0.1) ^ m')
  | 0, m, qcn, es, fc, r => by
    intro h
    exact absurd h (by simp [CptBI.calc_cn])
  | fuel + 1, m, qcn, es, fc, r => by
    intro h
    rw [calc_cn_succ] at h
    by_cases hc : (0.001 : ℝ) < |CptBI.cn_m_new m qcn (max es 0.1) fc - m|
    · rw [if_pos hc] at h
      obtain ⟨m', hm', hr⟩ :=
        c1_cn_converged_value fuel (CptBI.cn_m_new m qcn (max es 0.1) fc)
          qcn (max es 0.1) fc r h
      rw [max_assoc, max_self] at hm' hr
      exact ⟨m', hm', hr⟩
    · rw [if_neg hc] at h
      exact ⟨m, le_of_not_lt hc, (Option.some.inj h).symm⟩

/-- C1 counterexample: on the convergent run with `es = 10.132` the solver
returns 1.7, while the claimed formula `min(1.7, (10.132 / es) ^ m)` equals
1 for every possible exponent `m` (the base is `10.132 / 10.132 = 1`). -/
theorem c1_counterexample :
    CptBI.calc_cn 3 0.5 0 10.132 0 = some 1.7 ∧
      ∀ m' : ℝ, min (1.7 : ℝ) ((10.132 / max (10.132 : ℝ) 0.1) ^ m') ≠ 1.7 := by
  refine ⟨calc_cn_qcn_zero_run, fun m' => ?_⟩
  have hb : (10.132 / max (10.132 : ℝ) 0.1) = 1 := by norm_num
  rw [hb, Real.one_rpow]
  norm_num

/-- C1 witness: the converged-value characterization applied to the concrete
convergent run. -/
theorem c1_witness :
    CptBI.calc_cn 3 0.5 0 10.132 0 = some 1.7 ∧
      ∃ m', |CptBI.cn_m_new m' 0 (max (10.132 : ℝ) 0.1) 0 - m'| ≤ 0.001 ∧
        (1.7 : ℝ) = min 1.7 ((100 / max (10.132 : ℝ) 0.1) ^ m') :=
  ⟨calc_cn_qcn_zero_run,
    c1_cn_converged_value 3 0.5 0 10.132 0 1.7 calc_cn_qcn_zero_run⟩

/-- Quarter-power bound used for the divergence analysis:
`56 ≤ 10000000 ^ 0.25`. -/
theorem rpow_quarter_ten_seven : (56 : ℝ) ≤ (10000000 : ℝ) ^ ((0.25 : ℝ)) := by
  have key : (56 : ℝ) = ((56 : ℝ) ^ (4 : ℕ)) ^ ((0.25 : ℝ)) := by
    rw [← Real.rpow_natCast 56 4, ← Real.rpow_mul (by norm_num)]
    rw [show ((4 : ℕ) : ℝ) * 0.25 = 1 by push_cast; norm_num, Real.rpow_one]
  rw [key]
  exact Real.rpow_le_rpow (by positivity) (by norm_num) (by norm_num)

/-- Half-power evaluation: `100 ^ 0.5 = 10`. -/
theorem rpow_half_hundred : (100 : ℝ) ^ ((0.5 : ℝ)) = 10 := by
  have key : (100 : ℝ) = ((10 : ℝ) ^ (2 : ℕ)) := by norm_num
  rw [key, ← Real.rpow_natCast 10 2, ← Real.rpow_mul (by norm_num)]
  rw [show ((2 : ℕ) : ℝ) * 0.5 = 1 by push_cast; norm_num, Real.rpow_one]

/-- The fines factor at zero fines content: `exp(-64.8425) ≤ 0.0152`. -/
theorem exp_m64_le : Real.exp (-64.8425 : ℝ) ≤ 0.0152 := by
  have h1 : (65.8425 : ℝ) ≤ Real.exp 64.8425 := by
    have := Real.add_one_le_exp (64.8425 : ℝ)
    linarith
  calc Real.exp (-64.8425 : ℝ) = (Real.exp 64.8425)⁻¹ := Real.exp_neg _
    _ ≤ (65.8425 : ℝ)⁻¹ := inv_anti₀ (by norm_num) h1
    _ ≤ 0.0152 := by norm_num

/-- Divergence case A: from an exponent in `[0.5, 1.4]`, the update with
`qcn = 10^6`, `es = 0.1`, `fc = 0` lands at or below `-10`. -/
theorem cn_m_new_case_A (m : ℝ) (h05 : 0.5 ≤ m) (_h14 : m ≤ 1.4) :
    CptBI.cn_m_new m 1000000 0.1 0 ≤ -10 := by
  simp only [CptBI.cn_m_new]
  have hbase : (10.132 / (0.1 : ℝ)) = 101.32 := by norm_num
  have hEarg : (1.63 - 9.7 / ((0 : ℝ) + 2) - (15.7 / ((0 : ℝ) + 2)) ^ 2) =
      -64.8425 := by norm_num
  rw [hbase, hEarg]
  have hcn10 : (10 : ℝ) ≤ (101.32 : ℝ) ^ m := by
    have h1 : ((101.32 : ℝ)) ^ ((0.5 : ℝ)) ≤ (101.32 : ℝ) ^ m :=
      Real.rpow_le_rpow_of_exponent_le (by norm_num) h05
    have h2 : ((100 : ℝ)) ^ ((0.5 : ℝ)) ≤ ((101.32 : ℝ)) ^ ((0.5 : ℝ)) :=
      Real.rpow_le_rpow (by norm_num) (by norm_num) (by norm_num)
    rw [rpow_half_hundred] at h2
    linarith
  have hE : (0 : ℝ) < Real.exp (-64.8425 : ℝ) := Real.exp_pos _
  set c := (101.32 : ℝ) ^ m with hc
  have hq : (10000000 : ℝ) ≤ 1000000 * c := by nlinarith
  have hdiv_pos : (0 : ℝ) ≤ 1000000 * c / 14.6 := by positivity
  have hpos2 : (0 : ℝ) < 11.9 + 1000000 * c / 14.6 := by linarith
  have hprod : (0 : ℝ) ≤
      (11.9 + 1000000 * c / 14.6) * Real.exp (-64.8425 : ℝ) :=
    le_of_lt (mul_pos hpos2 hE)
  have hterm : (10000000 : ℝ) ≤
      1000000 * c + (11.9 + 1000000 * c / 14.6) * Real.exp (-64.8425 : ℝ) := by
    linarith
  have hs : (56 : ℝ) ≤
      (1000000 * c + (11.9 + 1000000 * c / 14.6) *
        Real.exp (-64.8425 : ℝ)) ^ ((0.264 : ℝ)) := by
    have h1 : ((10000000 : ℝ)) ^ ((0.25 : ℝ)) ≤
        ((10000000 : ℝ)) ^ ((0.264 : ℝ)) :=
      Real.rpow_le_rpow_of_exponent_le (by norm_num) (by norm_num)
    have h2 : ((10000000 : ℝ)) ^ ((0.264 : ℝ)) ≤
        (1000000 * c + (11.9 + 1000000 * c / 14.6) *
          Real.exp (-64.8425 : ℝ)) ^ ((0.264 : ℝ)) :=
      Real.rpow_le_rpow (by norm_num) hterm (by norm_num)
    linarith [rpow_quarter_ten_seven]
  linarith

/-- Divergence case B: from an exponent at or below `-10`, the update with
`qcn = 10^6`, `es = 0.1`, `fc = 0` lands strictly inside `(1.089, 1.338)`. -/
theorem cn_m_new_case_B (m : ℝ) (hm : m ≤ -10) :
    1.089 < CptBI.cn_m_new m 1000000 0.1 0 ∧
      CptBI.cn_m_new m 1000000 0.1 0 < 1.338 := by
  simp only [CptBI.cn_m_new]
  have hbase : (10.132 / (0.1 : ℝ)) = 101.32 := by norm_num
  have hEarg : (1.63 - 9.7 / ((0 : ℝ) + 2) - (15.7 / ((0 : ℝ) + 2)) ^ 2) =
      -64.8425 := by norm_num
  rw [hbase, hEarg]
  have hcn_pos : (0 : ℝ) < (101.32 : ℝ) ^ m := Real.rpow_pos_of_pos (by norm_num) m
  have hcn_le : (101.32 : ℝ) ^ m ≤ 1e-20 := by
    have h1 : (101.32 : ℝ) ^ m ≤ (101.32 : ℝ) ^ ((-10 : ℝ)) :=
      Real.rpow_le_rpow_of_exponent_le (by norm_num) hm
    have h2 : (101.32 : ℝ) ^ ((-10 : ℝ)) = ((101.32 : ℝ) ^ ((10 : ℝ)))⁻¹ :=
      Real.rpow_neg (by norm_num) 10
    have h3 : (101.32 : ℝ) ^ ((10 : ℝ)) = (101.32 : ℝ) ^ (10 : ℕ) := by
      rw [show ((10 : ℝ)) = ((10 : ℕ) : ℝ) by push_cast; norm_num,
        Real.rpow_natCast]
    have h4 : (1e20 : ℝ) ≤ (101.32 : ℝ) ^ (10 : ℕ) := by
      calc (1e20 : ℝ) = 100 ^ (10 : ℕ) := by norm_num
        _ ≤ (101.32 : ℝ) ^ (10 : ℕ) :=
          pow_le_pow_left (by norm_num) (by norm_num) 10
    have h5 : ((101.32 : ℝ) ^ (10 : ℕ))⁻¹ ≤ (1e20 : ℝ)⁻¹ :=
      inv_anti₀ (by norm_num) h4
    rw [h2, h3] at h1
    calc (101.32 : ℝ) ^ m ≤ ((101.32 : ℝ) ^ (10 : ℕ))⁻¹ := h1
      _ ≤ (1e20 : ℝ)⁻¹ := h5
      _ = 1e-20 := by norm_num
  have hE_pos : (0 : ℝ) < Real.exp (-64.8425 : ℝ) := Real.exp_pos _
  have hE_le := exp_m64_le
  set c := (101.32 : ℝ) ^ m with hc
  have hc14 : 1000000 * c ≤ 1e-14 := by linarith
  have hdiv_le : 1000000 * c / 14.6 ≤ 0.02 := by
    calc 1000000 * c / 14.6 ≤ 1e-14 / 14.6 := by gcongr
      _ ≤ 0.02 := by norm_num
  have hdiv_pos : (0 : ℝ) ≤ 1000000 * c / 14.6 := by positivity
  have h6 : 11.9 + 1000000 * c / 14.6 ≤ 11.92 := by linarith
  have hpos2 : (0 : ℝ) < 11.9 + 1000000 * c / 14.6 := by linarith
  have h8 : (11.9 + 1000000 * c / 14.6) * Real.exp (-64.8425 : ℝ) ≤
      11.92 * 0.0152 :=
    mul_le_mul h6 hE_le (le_of_lt hE_pos) (by norm_num)
  have hprod_pos : (0 : ℝ) <
      (11.9 + 1000000 * c / 14.6) * Real.exp (-64.8425 : ℝ) :=
    mul_pos hpos2 hE_pos
  have hX_pos : (0 : ℝ) <
      1000000 * c + (11.9 + 1000000 * c / 14.6) * Real.exp (-64.8425 : ℝ) := by
    have h1e6 : (0 : ℝ) < 1000000 * c := by linarith
    linarith
  have hX_lt1 :
      1000000 * c + (11.9 + 1000000 * c / 14.6) * Real.exp (-64.8425 : ℝ) <
        1 := by
    have : (11.92 : ℝ) * 0.0152 < 0.99 := by norm_num
    linarith
  have hs1 : (1000000 * c + (11.9 + 1000000 * c / 14.6) *
      Real.exp (-64.8425 : ℝ)) ^ ((0.264 : ℝ)) < 1 :=
    Real.rpow_lt_one (le_of_lt hX_pos) hX_lt1 (by norm_num)
  have hs0 : (0 : ℝ) < (1000000 * c + (11.9 + 1000000 * c / 14.6) *
      Real.exp (-64.8425 : ℝ)) ^ ((0.264 : ℝ)) :=
    Real.rpow_pos_of_pos hX_pos _
  constructor <;> linarith

/-- The divergence invariant: starting from an exponent in `[0.5, 1.4]` or
at or below `-10`, the Cn iteration with `qcn = 10^6`, `es = 0.1`, `fc = 0`
oscillates between the two regions forever and never converges, whatever the
fuel. -/
theorem calc_cn_diverges_aux :
    ∀ (fuel : ℕ) (m : ℝ), ((0.5 ≤ m ∧ m ≤ 1.4) ∨ m ≤ -10) →
      CptBI.calc_cn fuel m 1000000 0.1 0 = none
  | 0, _, _ => rfl
  | fuel + 1, m, hI => by
    rw [calc_cn_succ, max_self]
    rcases hI with ⟨h05, h14⟩ | hneg
    · have hA : CptBI.cn_m_new m 1000000 0.1 0 ≤ -10 :=
        cn_m_new_case_A m h05 h14
      have hcond : (0.001 : ℝ) < |CptBI.cn_m_new m 1000000 0.1 0 - m| := by
        rw [abs_of_neg (by linarith)]
        linarith
      rw [if_pos hcond]
      exact calc_cn_diverges_aux fuel _ (Or.inr hA)
    · obtain ⟨hgt, hlt⟩ := cn_m_new_case_B m hneg
      have hcond : (0.001 : ℝ) < |CptBI.cn_m_new m 1000000 0.1 0 - m| := by
        rw [abs_of_pos (by linarith)]
        linarith
      rw [if_pos hcond]
      exact calc_cn_diverges_aux fuel _ (Or.inl ⟨by linarith, by linarith⟩)

/-- C6: the Cn solver does not terminate on every input — with cone
resistance `10^6`, effective stress `0.1` and zero fines content, the
iteration started at `m = 0.5` never converges, for any fuel: the Python
original recurses until the interpreter recursion limit instead of failing
with a distinct numerical non-convergence error. -/
theorem c6_calc_cn_nontermination :
    ∀ fuel : ℕ, CptBI.calc_cn fuel 0.5 1000000 0.1 0 = none :=
  fun fuel =>
    calc_cn_diverges_aux fuel 0.5 (Or.inl ⟨le_refl _, by norm_num⟩)

/-! Structural lemmas for the normal-stress analysis. -/

theorem total_thickness_cons (l : SoilLayer) (ls : List SoilLayer) :
    total_thickness (l :: ls) = l.t + total_thickness ls := by
  simp [total_thickness]

theorem calcLayerDepthsGo_ne_nil (b : ℚ) (ls : List SoilLayer)
    (h : ls ≠ []) : calcLayerDepthsGo b ls ≠ [] := by
  cases ls with
  | nil => exact absurd rfl h
  | cons l ls => simp [calcLayerDepthsGo]

theorem calcLayerDepthsGo_length (b : ℚ) :
    ∀ ls : List SoilLayer, (calcLayerDepthsGo b ls).length = ls.length
  | [] => rfl
  | l :: ls => by
    simp [calcLayerDepthsGo, calcLayerDepthsGo_length (b + l.t) ls]

/-- One unfolding of the stress loop on a cons cell. -/
theorem normalStressGo_cons (gwl d : ℚ) (k i : ℕ) (l : SoilLayer)
    (ls : List SoilLayer) (prev tot : ℚ) :
    normalStressGo gwl d k (l :: ls) i prev tot =
      normalStressGo gwl d k ls (i + 1)
        (prev + (if i = k then d - prev else l.t))
        (tot + (if prev + (if i = k then d - prev else l.t) ≤ gwl then
            l.dry_unit_weight * (if i = k then d - prev else l.t)
          else if gwl ≤ prev then
            l.saturated_unit_weight * (if i = k then d - prev else l.t)
          else l.dry_unit_weight * (gwl - prev) +
            l.saturated_unit_weight *
              ((if i = k then d - prev else l.t) - (gwl - prev)))) := rfl

/-- The accumulated total factors out of the stress loop. -/
theorem normalStressGo_total (gwl d : ℚ) (k : ℕ) :
    ∀ (ls : List SoilLayer) (i : ℕ) (prev tot : ℚ),
      normalStressGo gwl d k ls i prev tot =
        tot + normalStressGo gwl d k ls i prev 0
  | [], _, _, _ => by simp [normalStressGo]
  | l :: ls, i, prev, tot => by
    rw [normalStressGo_cons, normalStressGo_cons]
    rw [normalStressGo_total gwl d k ls (i + 1) _ _,
      normalStressGo_total gwl d k ls (i + 1) _ (0 + _)]
    ring

/-- Shifting both the running index and the stop index leaves the loop
unchanged. -/
theorem normalStressGo_shift (gwl d : ℚ) :
    ∀ (ls : List SoilLayer) (k i : ℕ) (prev tot : ℚ),
      normalStressGo gwl d (k + 1) ls (i + 1) prev tot =
        normalStressGo gwl d k ls i prev tot
  | [], _, _, _, _ => rfl
  | l :: ls, k, i, prev, tot => by
    rw [normalStressGo_cons, normalStressGo_cons]
    simp only [Nat.add_right_cancel_iff]
    exact normalStressGo_shift gwl d ls k (i + 1) _ _

/-- Layers entirely below the query depth contribute nothing to the
specification sum. -/
theorem normal_stress_spec_of_le (gwl d : ℚ) :
    ∀ (ls : List SoilLayer) (top : ℚ), (∀ l ∈ ls, 0 ≤ l.t) → d ≤ top →
      normal_stress_spec gwl d ls top = 0
  | [], _, _, _ => rfl
  | l :: ls, top, hnn, hd => by
    rw [normal_stress_spec]
    have ht : 0 ≤ l.t := hnn l (by simp)
    have h1 : min (min (top + l.t) d) gwl - top ≤ 0 := by
      have := min_le_right (top + l.t) d
      have := min_le_left (min (top + l.t) d) gwl
      linarith
    have h2 : min (top + l.t) d - max top gwl ≤ 0 := by
      have := min_le_right (top + l.t) d
      have := le_max_left top gwl
      linarith
    rw [normal_stress_spec_of_le gwl d ls (top + l.t)
      (fun x hx => hnn x (by simp [hx])) (by linarith)]
    rw [max_eq_left h1, max_eq_left h2]
    ring

/-- The water-table split of one integration increment agrees with the
clamped specification contribution. -/
theorem piece_eq (dry sat b lt gwl : ℚ) (h0 : 0 ≤ lt) :
    (if b + lt ≤ gwl then dry * lt
     else if gwl ≤ b then sat * lt
     else dry * (gwl - b) + sat * (lt - (gwl - b))) =
    dry * max 0 (min (b + lt) gwl - b) + sat * max 0 (b + lt - max b gwl) := by
  by_cases h1 : b + lt ≤ gwl
  · rw [if_pos h1, min_eq_left h1, max_eq_right (show b ≤ gwl by linarith),
      max_eq_left (show b + lt - gwl ≤ 0 by linarith),
      max_eq_right (show (0 : ℚ) ≤ b + lt - b by linarith)]
    ring
  · rw [if_neg h1]
    by_cases h2 : gwl ≤ b
    · rw [if_pos h2, min_eq_right (by linarith : gwl ≤ b + lt),
        max_eq_left h2, max_eq_left (show gwl - b ≤ 0 by linarith),
        max_eq_right (show (0 : ℚ) ≤ b + lt - b by linarith)]
      ring
    · rw [if_neg h2]
      push_neg at h1 h2
      rw [min_eq_right (le_of_lt h1), max_eq_right (le_of_lt h2),
        max_eq_right (show (0 : ℚ) ≤ gwl - b by linarith),
        max_eq_right (show (0 : ℚ) ≤ b + lt - gwl by linarith)]
      ring

theorem update_t (l : SoilLayer) (c dep : ℚ) :
    ({ l with center := c, depth := dep } : SoilLayer).t = l.t := rfl

theorem update_dry (l : SoilLayer) (c dep : ℚ) :
    ({ l with center := c, depth := dep} : SoilLayer).dry_unit_weight =
      l.dry_unit_weight := rfl

theorem update_sat (l : SoilLayer) (c dep : ℚ) :
    ({ l with center := c, depth := dep } : SoilLayer).saturated_unit_weight =
      l.saturated_unit_weight := rfl

theorem update_depth (l : SoilLayer) (c dep : ℚ) :
    ({ l with center := c, depth := dep } : SoilLayer).depth = dep := rfl

/-- The loop stopping at the governing layer, with the partial last
increment. -/
theorem normalStressGo_last (gwl d : ℚ) (l : SoilLayer) (prev tot : ℚ) :
    normalStressGo gwl d 0 [l] 0 prev tot =
      tot + (if prev + (d - prev) ≤ gwl then l.dry_unit_weight * (d - prev)
        else if gwl ≤ prev then l.saturated_unit_weight * (d - prev)
        else l.dry_unit_weight * (gwl - prev) +
          l.saturated_unit_weight * ((d - prev) - (gwl - prev))) := rfl

/-- A full (non-final) layer increment of the loop, with both indices
shifted back. -/
theorem normalStressGo_cons_full (gwl d : ℚ) (k : ℕ) (l : SoilLayer)
    (ls : List SoilLayer) (prev tot : ℚ) :
    normalStressGo gwl d (k + 1) (l :: ls) 0 prev tot =
      normalStressGo gwl d k ls 0 (prev + l.t)
        (tot + (if prev + l.t ≤ gwl then l.dry_unit_weight * l.t
          else if gwl ≤ prev then l.saturated_unit_weight * l.t
          else l.dry_unit_weight * (gwl - prev) +
            l.saturated_unit_weight * (l.t - (gwl - prev)))) := by
  rw [normalStressGo_cons]
  simp only [if_neg (Nat.ne_of_beq_eq_false rfl : (0 : ℕ) ≠ k + 1)]
  exact normalStressGo_shift gwl d ls k 0 _ _

/-- `calc_normal_stress` computes the specification sum: for non-negative
thicknesses and a query depth within the profile, the loop over the
depth-annotated layers equals the clamped per-layer contribution sum. -/
theorem code_stress_eq_spec (gwl : ℚ) :
    ∀ (ls : List SoilLayer) (b d : ℚ), ls ≠ [] →
      (∀ l ∈ ls, 0 ≤ l.t) → b ≤ d → d ≤ b + total_thickness ls →
      normalStressGo gwl d
          ((findLayerIdx d (calcLayerDepthsGo b ls)).getD
            ((calcLayerDepthsGo b ls).length - 1))
          ((calcLayerDepthsGo b ls).take
            (((findLayerIdx d (calcLayerDepthsGo b ls)).getD
              ((calcLayerDepthsGo b ls).length - 1)) + 1))
          0 b 0 =
        normal_stress_spec gwl d ls b
  | [], _, _, hne, _, _, _ => absurd rfl hne
  | l :: ls', b, d, _, hnn, hbd, hdt => by
    have ht0 : 0 ≤ l.t := hnn l (by simp)
    by_cases hd : d ≤ b + l.t
    · have hfind : findLayerIdx d (calcLayerDepthsGo b (l :: ls')) =
          some 0 := by
        simp only [calcLayerDepthsGo, findLayerIdx, update_depth]
        rw [if_pos hd]
      rw [hfind]
      simp only [Option.getD_some]
      rw [show calcLayerDepthsGo b (l :: ls') =
        { l with center := b + l.t / 2, depth := b + l.t } ::
          calcLayerDepthsGo (b + l.t) ls' from rfl]
      rw [List.take_succ_cons, List.take_zero, normalStressGo_last]
      simp only [update_dry, update_sat]
      simp only [normal_stress_spec]
      rw [normal_stress_spec_of_le gwl d ls' (b + l.t)
        (fun x hx => hnn x (by simp [hx])) hd]
      rw [min_eq_right hd]
      rw [piece_eq l.dry_unit_weight l.saturated_unit_weight b (d - b) gwl
        (by linarith)]
      rw [show b + (d - b) = d by ring]
      ring
    · have hbl : b + l.t < d := not_le.mp hd
      have hls' : ls' ≠ [] := by
        intro h
        subst h
        rw [total_thickness_cons] at hdt
        simp only [total_thickness, List.map_nil, List.sum_nil] at hdt
        linarith
      have hRne : calcLayerDepthsGo (b + l.t) ls' ≠ [] :=
        calcLayerDepthsGo_ne_nil _ _ hls'
      have hfind : findLayerIdx d (calcLayerDepthsGo b (l :: ls')) =
          (findLayerIdx d (calcLayerDepthsGo (b + l.t) ls')).map (· + 1) := by
        simp only [calcLayerDepthsGo, findLayerIdx, update_depth]
        rw [if_neg hd]
      have hlen : (calcLayerDepthsGo b (l :: ls')).length =
          (calcLayerDepthsGo (b + l.t) ls').length + 1 := by
        simp [calcLayerDepthsGo]
      have hidx : (findLayerIdx d (calcLayerDepthsGo b (l :: ls'))).getD
          ((calcLayerDepthsGo b (l :: ls')).length - 1) =
          ((findLayerIdx d (calcLayerDepthsGo (b + l.t) ls')).getD
            ((calcLayerDepthsGo (b + l.t) ls').length - 1)) + 1 := by
        rw [hfind, hlen]
        cases hfR : findLayerIdx d (calcLayerDepthsGo (b + l.t) ls') with
        | none =>
          simp only [Option.map_none', Option.getD_none]
          have : 0 < (calcLayerDepthsGo (b + l.t) ls').length :=
            List.length_pos.mpr hRne
          omega
        | some j => simp
      rw [hidx]
      rw [show calcLayerDepthsGo b (l :: ls') =
        { l with center := b + l.t / 2, depth := b + l.t } ::
          calcLayerDepthsGo (b + l.t) ls' from rfl]
      rw [List.take_succ_cons, normalStressGo_cons_full]
      simp only [update_dry, update_sat, update_t]
      rw [normalStressGo_total]
      rw [code_stress_eq_spec gwl ls' (b + l.t) d hls'
        (fun x hx => hnn x (by simp [hx])) (le_of_lt hbl)
        (by rw [total_thickness_cons] at hdt; linarith)]
      simp only [normal_stress_spec]
      rw [min_eq_left (le_of_lt hbl)]
      rw [piece_eq l.dry_unit_weight l.saturated_unit_weight b l.t gwl ht0]
      ring

/-- The specification sum is monotone in the query depth when all unit
weights are non-negative. -/
theorem normal_stress_spec_mono (gwl d₁ d₂ : ℚ) (h12 : d₁ ≤ d₂) :
    ∀ (ls : List SoilLayer) (top : ℚ),
      (∀ l ∈ ls, 0 ≤ l.dry_unit_weight ∧ 0 ≤ l.saturated_unit_weight) →
      normal_stress_spec gwl d₁ ls top ≤ normal_stress_spec gwl d₂ ls top
  | [], _, _ => le_refl _
  | l :: ls, top, hw => by
    simp only [normal_stress_spec]
    have hdry := (hw l (by simp)).1
    have hsat := (hw l (by simp)).2
    have h1 : max 0 (min (min (top + l.t) d₁) gwl - top) ≤
        max 0 (min (min (top + l.t) d₂) gwl - top) :=
      max_le_max le_rfl
        (sub_le_sub_right (min_le_min (min_le_min le_rfl h12) le_rfl) top)
    have h2 : max 0 (min (top + l.t) d₁ - max top gwl) ≤
        max 0 (min (top + l.t) d₂ - max top gwl) :=
      max_le_max le_rfl
        (sub_le_sub_right (min_le_min le_rfl h12) (max top gwl))
    have h3 := normal_stress_spec_mono gwl d₁ d₂ h12 ls (top + l.t)
      (fun x hx => hw x (by simp [hx]))
    have h4 := mul_le_mul_of_nonneg_left h1 hdry
    have h5 := mul_le_mul_of_nonneg_left h2 hsat
    linarith

/-- C7: for a constructed profile with non-negative thicknesses and unit
weights, `calc_normal_stress` is monotone in the depth, and at every depth
within the profile equals the specification sum of unit-weight times
thickness contributions over the layers spanned from the surface down to
that depth (dry above the water table, saturated below, split proportionally
in a straddling layer). -/
theorem c7_normal_stress (layers : List SoilLayer) (gwl : ℚ)
    (p : SoilProfile) (hp : SoilProfile.create layers gwl = Except.ok p)
    (hw : ∀ l ∈ layers, 0 ≤ l.t ∧ 0 ≤ l.dry_unit_weight ∧
      0 ≤ l.saturated_unit_weight)
    (d₁ d₂ : ℚ) (h0 : 0 ≤ d₁) (h12 : d₁ ≤ d₂)
    (h2 : d₂ ≤ total_thickness layers) :
    p.calc_normal_stress d₁ ≤ p.calc_normal_stress d₂ ∧
    p.calc_normal_stress d₂ = normal_stress_spec gwl d₂ layers 0 := by
  have hne : layers ≠ [] := by
    intro h
    subst h
    simp [SoilProfile.create] at hp
  have hp' : p = ⟨calcLayerDepthsGo 0 layers, gwl⟩ := by
    unfold SoilProfile.create at hp
    rw [if_neg (by simpa [List.isEmpty_iff] using hne)] at hp
    by_cases hany : layers.any (fun l => l.thickness = none)
    · rw [if_pos hany] at hp
      exact absurd hp (by simp)
    · rw [if_neg hany] at hp
      exact (Except.ok.inj hp).symm
  have key : ∀ d : ℚ, 0 ≤ d → d ≤ total_thickness layers →
      p.calc_normal_stress d = normal_stress_spec gwl d layers 0 := by
    intro d hd0 hdt
    rw [hp']
    simp only [SoilProfile.calc_normal_stress, SoilProfile.get_layer_index]
    exact code_stress_eq_spec gwl layers 0 d hne (fun l hl => (hw l hl).1)
      hd0 (by simpa using hdt)
  refine ⟨?_, key d₂ (le_trans h0 h12) h2⟩
  rw [key d₁ h0 (le_trans h12 h2), key d₂ (le_trans h0 h12) h2]
  exact normal_stress_spec_mono gwl d₁ d₂ h12 layers 0
    (fun l hl => (hw l hl).2)

/-- C7 witness: the three-layer scenario profile, evaluated between depths 1
and 7. -/
theorem c7_witness :
    (SoilProfile.create scenarioLayersC2 1 = Except.ok scenarioProfileC2 ∧
      (∀ l ∈ scenarioLayersC2, 0 ≤ l.t ∧ 0 ≤ l.dry_unit_weight ∧
        0 ≤ l.saturated_unit_weight) ∧
      (0 : ℚ) ≤ 1 ∧ (1 : ℚ) ≤ 7 ∧
      (7 : ℚ) ≤ total_thickness scenarioLayersC2) ∧
    (scenarioProfileC2.calc_normal_stress 1 ≤
        scenarioProfileC2.calc_normal_stress 7 ∧
      scenarioProfileC2.calc_normal_stress 7 =
        normal_stress_spec 1 7 scenarioLayersC2 0) := by
  have hcreate : SoilProfile.create scenarioLayersC2 1 =
      Except.ok scenarioProfileC2 := by
    simp only [SoilProfile.create, calcLayerDepthsGo, SoilLayer.t,
      scenarioProfileC2, scenarioLayersC2]
    norm_num
    rintro (h | h | h) <;> simp at h
  have hw : ∀ l ∈ scenarioLayersC2, 0 ≤ l.t ∧ 0 ≤ l.dry_unit_weight ∧
      0 ≤ l.saturated_unit_weight := by
    intro l hl
    simp only [scenarioLayersC2, List.mem_cons, List.not_mem_nil,
      or_false] at hl
    rcases hl with rfl | rfl | rfl <;> norm_num [SoilLayer.t]
  have htot : (7 : ℚ) ≤ total_thickness scenarioLayersC2 := by
    simp only [scenarioLayersC2, total_thickness, SoilLayer.t,
      List.map_cons, List.map_nil, List.sum_cons, List.sum_nil]
    norm_num
  exact ⟨⟨hcreate, hw, by norm_num, by norm_num, htot⟩,
    c7_normal_stress scenarioLayersC2 1 scenarioProfileC2 hcreate hw 1 7
      (by norm_num) (by norm_num) htot⟩

end Soilstat
